import Mathlib

namespace PaymentRelay

/-!
Shallow embedding of the payment-initiation relay server
(Express/Supabase, files `src/app.js`, `src/index.js`, `src/unnamed/part_000`
through `part_005`).  JavaScript optional values are `Option`, JS `||`
defaults follow JS falsiness (0 and "" are falsy), and each HTTP handler is
embedded as a pure function from its inputs (request body, in-memory map
content, database answer) to its observable effects (HTTP response, rows
inserted, map content afterwards).
-/

/-- JS `String.prototype.toLowerCase` restricted to ASCII, applied
character by character. -/
def jsCharLower (c : Char) : Char :=
  if 'A' ≤ c ∧ c ≤ 'Z' then Char.ofNat (c.toNat + 32) else c

/-- JS `s.toLowerCase()` (ASCII). -/
def jsToLower (s : String) : String := String.mk (s.toList.map jsCharLower)

/-- JS `String.prototype.toUpperCase` restricted to ASCII. -/
def jsCharUpper (c : Char) : Char :=
  if 'a' ≤ c ∧ c ≤ 'z' then Char.ofNat (c.toNat - 32) else c

/-- JS `s.toUpperCase()` (ASCII). -/
def jsToUpper (s : String) : String := String.mk (s.toList.map jsCharUpper)

/-- JS `a || b` for numbers: `0` is falsy, `undefined` is falsy. -/
def jsOrNat : Option Nat → Nat → Nat
  | some n, b => if n = 0 then b else n
  | none, b => b

/-- JS `a || b` for strings: the empty string is falsy. -/
def jsOrStr : Option String → String → String
  | some s, b => if s = "" then b else s
  | none, b => b

/-- JS `a || b` when both sides are possibly-undefined strings. -/
def jsOrOpt : Option String → Option String → Option String
  | some s, b => if s = "" then b else some s
  | none, b => b

/-- The `result` object of a raw SwiftWallet webhook payload; every field
may be absent. -/
structure SwiftResult where
  amountField : Option Nat := none
  phoneField : Option String := none
  transactionDate : Option String := none
  mpesaReceiptNumber : Option String := none
  resultCode : Option Nat := none
  resultDesc : Option String := none
deriving Repr, DecidableEq

/-- A raw SwiftWallet webhook payload (`req.body` of `POST /api/callback`
in the SwiftWallet variants); every field may be absent.  `success` is
`some true` exactly when the JS value is literally `true` (the code
compares with `===`). -/
structure SwiftCallback where
  success : Option Bool := none
  statusField : Option String := none
  result : Option SwiftResult := none
  amountField : Option Nat := none
  message : Option String := none
  external_reference : Option String := none
deriving Repr, DecidableEq

/-- The `response` object of a PayHero-format callback.  `extRefSnake`
models the snake-case `response.external_reference` a raw provider
payload may carry (the transforms never set it). -/
structure PayHeroResponse where
  statusName : Option String := none
  amountField : Option Nat := none
  phoneField : Option String := none
  externalReference : Option String := none
  extRefSnake : Option String := none
  transactionDate : Option String := none
  mpesaReceiptNumber : Option String := none
  resultCode : Option Nat := none
  resultDesc : Option String := none
deriving Repr, DecidableEq

/-- A PayHero-format callback body. -/
structure PayHeroCallback where
  response : Option PayHeroResponse := none
  statusField : Option String := none
  external_reference : Option String := none
  reference : Option String := none
deriving Repr, DecidableEq

/-- JS `swiftCallback?.result?.X` field access through two optional hops. -/
def resultField (cb : SwiftCallback) (f : SwiftResult → Option α) : Option α :=
  match cb.result with
  | some r => f r
  | none => none

/-- Shared tail of `transformSwiftWalletCallbackToPayHero`: every field of
the PayHero `response` object other than `Status`, as built by the source
(`nowDigits` stands for the string the code derives from `new Date()`). -/
def transformBody (statusName : String) (cb : SwiftCallback) (nowDigits : String) :
    PayHeroCallback :=
  { response := some
      { statusName := some statusName
        amountField := some (jsOrNat (resultField cb SwiftResult.amountField)
          (jsOrNat cb.amountField 5))
        phoneField := some (jsOrStr (resultField cb SwiftResult.phoneField) "")
        externalReference := cb.external_reference
        transactionDate := some
          (jsOrStr (resultField cb SwiftResult.transactionDate) nowDigits)
        mpesaReceiptNumber := some
          (jsOrStr (resultField cb SwiftResult.mpesaReceiptNumber) "")
        resultCode := some (jsOrNat (resultField cb SwiftResult.resultCode)
          (if cb.success = some true then 0 else 1))
        resultDesc := some (jsOrStr (resultField cb SwiftResult.resultDesc)
          (jsOrStr cb.message "Transaction processed")) }
    statusField := none
    external_reference := cb.external_reference
    reference := cb.external_reference }

/-- Function `transformSwiftWalletCallbackToPayHero` as written in `src/app.js`
(lines 693-711) and `src/unnamed/part_000` (lines 158-176): the `Status`
is `'Success'` iff `success === true` and the raw status is literally
`'completed'` or `'COMPLETED'`. -/
def transformExact (cb : SwiftCallback) (nowDigits : String) : PayHeroCallback :=
  transformBody
    (if cb.success = some true ∧
        (cb.statusField = some "completed" ∨ cb.statusField = some "COMPLETED")
     then "Success" else "Failed") cb nowDigits

/-- JS `swiftCallback?.status?.toLowerCase()`. -/
def statusLower (cb : SwiftCallback) : Option String :=
  match cb.statusField with
  | some s => some (jsToLower s)
  | none => none

/-- Function `transformSwiftWalletCallbackToPayHero` as written in
`src/unnamed/part_005` (lines 328-345): same as the exact variant except
the status comparison lower-cases the raw status first (the source
repeats the identical `=== 'completed'` disjunct twice). -/
def transformLower (cb : SwiftCallback) (nowDigits : String) : PayHeroCallback :=
  transformBody
    (if cb.success = some true ∧
        (statusLower cb = some "completed" ∨ statusLower cb = some "completed")
     then "Success" else "Failed") cb nowDigits

/-- JS `data?.response?.Status` on a PayHero-format callback. -/
def phStatus (c : PayHeroCallback) : Option String :=
  match c.response with
  | some r => r.statusName
  | none => none

/-- JS `data?.response?.ExternalReference || data?.external_reference || data?.reference`
(`src/unnamed/part_005` lines 654-656). -/
def phExtRef (c : PayHeroCallback) : Option String :=
  jsOrOpt (match c.response with | some r => r.externalReference | none => none)
    (jsOrOpt c.external_reference c.reference)

/-- JS `statusRaw = data?.response?.Status || data?.status`. -/
def cbStatusRaw (c : PayHeroCallback) : Option String :=
  jsOrOpt (phStatus c) c.statusField

/-- JS `status = statusRaw ? statusRaw.toUpperCase() : null`. -/
def cbStatus (c : PayHeroCallback) : Option String :=
  match cbStatusRaw c with
  | some s => if s = "" then none else some (jsToUpper s)
  | none => none

/-- JS `status && status.toLowerCase() === tok`. -/
def statusIsLower (st : Option String) (tok : String) : Bool :=
  match st with
  | some s => jsToLower s == tok
  | none => false

/-- The pending-request record the dual-gateway `/api/pay`
(`src/unnamed/part_005` lines 513-524) stores in `transactionStatuses`:
the caller's response handle `res` is held inside it and `resolved`
starts `false`.  Only the `resolved` flag matters for resolution. -/
structure PendingRequest where
  resolved : Bool
deriving Repr, DecidableEq

/-- Observable state of the reconciliation engine for one correlation
key: the registry entry for the key (if present), the list of statuses
written to the caller's held connection, and the number of
`payment_callbacks` rows persisted for the key. -/
structure RelayState where
  registry : Option PendingRequest
  sink : List String
  records : Nat
deriving Repr, DecidableEq

/-- Events that can touch the key: a webhook delivered to
`POST /api/callback`, or the firing of the 120-second `setTimeout`. -/
inductive RelayEvent where
  | webhook (body : SwiftCallback)
  | timer
deriving Repr, DecidableEq

/-- The status the callback handler writes to the held connection
(`src/unnamed/part_005` lines 680-692): `SUCCESS` for
`SUCCESS`/`COMPLETED`, otherwise the initialized default `FAILED`. -/
def swiftResolveStatus (status : Option String) : String :=
  if status = some "SUCCESS" ∨ status = some "COMPLETED" then "SUCCESS" else "FAILED"

/-- One webhook delivery through the dual-gateway callback handler
(`src/unnamed/part_005` lines 634-744), restricted to its effects on the
key `k`: transform the payload, look the reference up, resolve the held
connection iff an unresolved entry is found (writing the response and
deleting the entry), then persist the callback row. -/
def webhookStep (k d : String) (body : SwiftCallback) (s : RelayState) : RelayState :=
  let data := transformLower body d
  let status := cbStatus data
  let ref := phExtRef data
  let memoryData := if ref = some k then s.registry else none
  let s1 :=
    match memoryData with
    | some r =>
        if r.resolved = false then
          { s with registry := none, sink := s.sink ++ [swiftResolveStatus status] }
        else s
    | none => s
  { s1 with records := s1.records + (if ref = some k then 1 else 0) }

/-- The payment-timeout timer (`src/unnamed/part_005` lines 594-611): if
the entry is still present and unresolved, mark it resolved, delete it,
and answer the held connection with `TIMEOUT`; otherwise do nothing. -/
def timerStep (s : RelayState) : RelayState :=
  match s.registry with
  | some r =>
      if r.resolved = false then
        { s with registry := none, sink := s.sink ++ ["TIMEOUT"] }
      else s
  | none => s

def relayStep (k d : String) (s : RelayState) : RelayEvent → RelayState
  | .webhook body => webhookStep k d body s
  | .timer => timerStep s

def relayRun (k d : String) (s : RelayState) (evs : List RelayEvent) : RelayState :=
  evs.foldl (relayStep k d) s

/-- Registry content right after `POST /api/pay` registers the request
(`transactionStatuses.set(uniqueRef, paymentRequest)` with
`resolved: false`): one pending entry, no sink write, no rows. -/
def initState : RelayState :=
  { registry := some { resolved := false }, sink := [], records := 0 }

/-- Number of webhook events in a trace. -/
def webhookCount : List RelayEvent → Nat
  | [] => 0
  | .webhook _ :: t => webhookCount t + 1
  | .timer :: t => webhookCount t

/-- An event is resolving for key `k` when it is the timer or a webhook
whose payload carries `k` as its external reference. -/
def resolving (k : String) : RelayEvent → Prop
  | .webhook b => b.external_reference = some k
  | .timer => True

/-- One if the registry holds an unresolved (pending) entry, else `0`. -/
def liveN (s : RelayState) : Nat :=
  match s.registry with
  | some r => if r.resolved then 0 else 1
  | none => 0

/-- The record the dual-gateway `/api/pay` of `src/app.js` (lines
756-764) stores in `transactionStatuses`; only the fields the callback
handler reads or writes are kept. -/
structure DGMemRec where
  statusField : String
  user_id : Option Nat
  verified : Bool
deriving Repr, DecidableEq

/-- Observable outcome of one run of the `src/app.js` dual-gateway
callback handler: the HTTP status actually sent (`none` when the handler
ends without responding), rows inserted into `payment_callbacks` and
`transactions`, and the memory entry for the key afterwards. -/
structure DGOutcome where
  httpResponse : Option Nat
  callbackRows : Nat
  transactionRows : Nat
  memoryAfter : Option DGMemRec
deriving Repr, DecidableEq

/-- Route `POST /api/callback` of the dual-gateway `src/app.js` (lines
789-1025), as a function of the memory entry stored under the webhook's
reference and the raw SwiftWallet body: transform with the exact-match
variant, persist the row when a reference is present, and on a success
status insert a `transactions` row for the remembered `user_id` — or,
when no `user_id` is in memory, `return` out of the handler (skipping
`res.sendStatus(200)`); finally write the terminal status back into the
memory entry (leaving it in the map). -/
def dualCallbackHandler (mem : Option DGMemRec) (body : SwiftCallback) (d : String) :
    DGOutcome :=
  let data := transformExact body d
  let status := cbStatus data
  let ref := phExtRef data
  let memoryData := match ref with | some _ => mem | none => none
  match ref with
  | none => { httpResponse := some 200, callbackRows := 0, transactionRows := 0,
              memoryAfter := mem }
  | some _ =>
      if statusIsLower status "success" then
        match memoryData with
        | none =>
            { httpResponse := none, callbackRows := 1, transactionRows := 0,
              memoryAfter := mem }
        | some m =>
            match m.user_id with
            | none =>
                { httpResponse := none, callbackRows := 1, transactionRows := 0,
                  memoryAfter := mem }
            | some uid =>
                if uid = 0 then
                  { httpResponse := none, callbackRows := 1, transactionRows := 0,
                    memoryAfter := mem }
                else
                  { httpResponse := some 200, callbackRows := 1, transactionRows := 1,
                    memoryAfter := some
                      { m with
                        statusField := match status with
                          | some s => jsToUpper s
                          | none => m.statusField
                        verified := statusIsLower status "success" } }
      else
        { httpResponse := some 200, callbackRows := 1, transactionRows := 0,
          memoryAfter := match memoryData with
            | some m => some
                { m with
                  statusField := match status with
                    | some s => jsToUpper s
                    | none => m.statusField
                  verified := statusIsLower status "success" }
            | none => mem }

/-- JS `data?.response?.ExternalReference || data?.external_reference ||
data?.response?.external_reference || data?.reference` — the four-term
extraction chain of the PayHero-style handlers (`src/app.js` lines
124-127 and 805-808, `src/unnamed/part_001` lines 189-192). -/
def phExtRef4 (c : PayHeroCallback) : Option String :=
  jsOrOpt (match c.response with | some r => r.externalReference | none => none)
    (jsOrOpt c.external_reference
      (jsOrOpt (match c.response with | some r => r.extRefSnake | none => none)
        c.reference))

/-- JS truthiness for an optional string (`undefined` and `''` falsy). -/
def jsTruthyStr : Option String → Bool
  | some s => s ≠ ""
  | none => false

/-- A row of the durable `payment_callbacks` store as the status query
selects it (`status, callback_data, created_at`). -/
structure DbRow where
  statusField : Option String := none
  created_at : String := ""
deriving Repr, DecidableEq

/-- The observable part of an HTTP answer of the status endpoint: the
HTTP code, the top-level `status` tag of the JSON body, the
`payment_status.status` string when one is reported, and the `verified`
flag when one is reported. -/
structure StatusResp where
  code : Nat
  tag : String
  payloadStatus : Option String := none
  verifiedFlag : Option Bool := none
deriving Repr, DecidableEq

/-- JS `statusInfo.status === 'SUCCESS' || statusInfo.status === 'COMPLETED'`. -/
def statusVerified (st : String) : Bool := st == "SUCCESS" || st == "COMPLETED"

/-- Route `GET /api/status/:externalRef` of the dual-gateway `src/app.js`
(lines 1028-1086): answer from the in-memory map first; otherwise query
the durable store ordered by `created_at` descending with `limit(1)`
(throwing to a 500 on a store error); with a row, report its status
upper-cased (defaulting `PENDING`); with no row anywhere, report
`Pending` with HTTP 202.  (The durable branch also caches its payload
back into the map; the cache write is not part of the response.) -/
def dualStatusHandler (mem : Option DGMemRec) (db : Except Unit (List DbRow)) :
    StatusResp :=
  match mem with
  | some s =>
      { code := 200, tag := "Success", payloadStatus := some s.statusField,
        verifiedFlag := some (statusVerified s.statusField) }
  | none =>
      match db with
      | .error _ => { code := 500, tag := "Failure" }
      | .ok [] => { code := 202, tag := "Pending", verifiedFlag := some false }
      | .ok (latest :: _) =>
          { code := 200, tag := "Success",
            payloadStatus := some (jsToUpper (jsOrStr latest.statusField "PENDING")),
            verifiedFlag := some (statusVerified
              (jsToUpper (jsOrStr latest.statusField "PENDING"))) }

/-- Route `GET /api/status/:externalRef` of the early PayHero variant
(`src/app.js` lines 532-541): memory only; a missing key answers
HTTP 404 with a `Failure` body. -/
def memoryOnlyStatusHandler (mem : Option String) : StatusResp :=
  match mem with
  | some st => { code := 200, tag := "Success", payloadStatus := some st }
  | none => { code := 404, tag := "Failure" }

/-- An axios rejection: `httpStatus` is present when the provider
answered with an HTTP error status (business failure, structured body in
`body`); `none` models a transport failure (timeout, connection). -/
structure ApiFailure where
  httpStatus : Option Nat := none
  body : Option String := none
deriving Repr, DecidableEq

/-- Result of one `axios.post` to the provider. -/
inductive ApiResult where
  | ok (respStatus : Nat)
  | err (e : ApiFailure)
deriving Repr, DecidableEq

/-- The retry loop of `POST /api/pay` (`src/unnamed/part_000` lines
240-282, `src/unnamed/part_005` lines 540-578): `for attempt = 1..3`,
call the provider; on success break; on any caught error sleep 2 s and
retry while `attempt < 3`, else rethrow.  `runAttempts p attempt rem`
runs attempt number `attempt` with `rem` retries left and returns the
number of the last attempt made together with its outcome. -/
def runAttempts (p : Nat → ApiResult) : Nat → Nat → Nat × ApiResult
  | attempt, 0 => (attempt, p attempt)
  | attempt, rem + 1 =>
      match p attempt with
      | .ok r => (attempt, .ok r)
      | .err _ => runAttempts p (attempt + 1) rem

/-- The full three-attempt budget of the source. -/
def retryLoop (p : Nat → ApiResult) : Nat × ApiResult := runAttempts p 1 2

/-- A provider that always rejects with an HTTP 400 carrying a
structured error body — a business failure in the spec's taxonomy. -/
def businessReject : Nat → ApiResult :=
  fun _ => .err { httpStatus := some 400, body := some "invalid phone" }

/-- Route `POST /api/callback` of `src/unnamed/part_001` (lines 178-342),
observable effects only: persist the callback row whenever a reference
is present; on a success status look the `user_id` up in memory (early
`return` without response when it is falsy) and insert a `transactions`
row; the handler never writes the in-memory map, so `memoryAfter = mem`
on every path. -/
def payheroCallbackV1 (mem : Option DGMemRec) (body : PayHeroCallback) : DGOutcome :=
  let status := cbStatus body
  let ref := phExtRef4 body
  match ref with
  | none => { httpResponse := some 200, callbackRows := 0, transactionRows := 0,
              memoryAfter := mem }
  | some _ =>
      if statusIsLower status "success" then
        match mem with
        | none =>
            { httpResponse := none, callbackRows := 1, transactionRows := 0,
              memoryAfter := mem }
        | some m =>
            match m.user_id with
            | none =>
                { httpResponse := none, callbackRows := 1, transactionRows := 0,
                  memoryAfter := mem }
            | some uid =>
                if uid = 0 then
                  { httpResponse := none, callbackRows := 1, transactionRows := 0,
                    memoryAfter := mem }
                else
                  { httpResponse := some 200, callbackRows := 1, transactionRows := 1,
                    memoryAfter := mem }
      else
        { httpResponse := some 200, callbackRows := 1, transactionRows := 0,
          memoryAfter := mem }

/-- Rows accumulated in the durable store across repeated deliveries. -/
structure StoreRows where
  callbackRows : Nat
  transactionRows : Nat
deriving Repr, DecidableEq

/-- Deliver the identical webhook `n` times through
`payheroCallbackV1`; since the handler leaves the map unchanged, each
delivery sees the same memory entry. -/
def deliverRepeat (mem : Option DGMemRec) (body : PayHeroCallback) : Nat → StoreRows
  | 0 => { callbackRows := 0, transactionRows := 0 }
  | n + 1 =>
      let prev := deliverRepeat mem body n
      let o := payheroCallbackV1 mem body
      { callbackRows := prev.callbackRows + o.callbackRows,
        transactionRows := prev.transactionRows + o.transactionRows }

/-- A raw PayHero success webhook for key `k`, as in the spec's
duplicate-delivery scenario. -/
def successPayHero (k : String) : PayHeroCallback :=
  { response := some
      { statusName := some "Success"
        externalReference := some k
        amountField := some 500 } }

/-- JS `reference.replace(/[^a-zA-Z0-9]/g, '')`. -/
def stripNonAlnum (s : String) : String := String.mk (s.toList.filter Char.isAlphanum)

/-- JS `.substring(0, 4)`. -/
def jsSubstring4 (s : String) : String := String.mk (s.toList.take 4)

/-- JS `Number.prototype.toString` for a nonnegative integer. -/
def jsNumToString (n : Nat) : String :=
  if n = 0 then "0" else String.mk (((Nat.digits 10 n).map Nat.digitChar).reverse)

/-- JS `.slice(-4)` on a string. -/
def jsSliceLast4 (s : String) : String :=
  String.mk (s.toList.drop (s.toList.length - 4))

/-- The `uniqueRef` generation (`src/unnamed/part_000` lines 211-212,
`src/unnamed/part_005` lines 374-375):
`reference.replace(/[^a-zA-Z0-9]/g, '').substring(0, 4) +
Date.now().toString().slice(-4)`. -/
def uniqueRef (reference : String) (nowMs : Nat) : String :=
  jsSubstring4 (stripNonAlnum reference) ++ jsSliceLast4 (jsNumToString nowMs)

/-- The 4-digit zero-padded decimal representation of `m < 10000` — the
spec-side description of the appended timestamp slice. -/
def pad4 (m : Nat) : String :=
  String.mk [Nat.digitChar (m / 1000 % 10), Nat.digitChar (m / 100 % 10),
    Nat.digitChar (m / 10 % 10), Nat.digitChar (m % 10)]

/-- A JS primitive value as it may appear in a JSON request body. -/
inductive JsVal where
  | str (s : String)
  | num (n : Int)
  | jsNull
deriving Repr, DecidableEq

/-- A JS runtime error escaping a handler. -/
inductive JsError where
  | typeError
deriving Repr, DecidableEq

/-- Body of `POST /api/pay`. -/
structure PayBody where
  phone : Option JsVal := none
  amount : Option JsVal := none
  reference : Option String := none
deriving Repr, DecidableEq

/-- The provider's initiation answer as `/api/pay` reads it. -/
structure ProviderData where
  statusField : Option String := none
  message : Option String := none
  external_reference : Option String := none
deriving Repr, DecidableEq

/-- An HTTP answer of `/api/pay`: the 200 JSON of the success path or
the structured `{status: 'Failure', ...}` JSON of the error branch. -/
inductive PayResponse where
  | okJson (status : String) (externalReference : Option String)
  | failureJson (code : Nat) (status : String)
deriving Repr, DecidableEq

/-- Observable outcome of one run of `POST /api/pay`: whether a runtime
error escaped the handler, whether the provider was contacted, whether a
pending entry was registered, and the response sent (if any). -/
structure PayOutcome where
  thrown : Option JsError
  providerContacted : Bool
  registered : Bool
  response : Option PayResponse
deriving Repr, DecidableEq

/-- JS `const fullPhone = phone.startsWith('254') ? phone : '254' + phone`:
only a string value has the `startsWith` method; any other value (absent
field, `null`, a number) raises a `TypeError`. -/
def jsFullPhone : Option JsVal → Except JsError String
  | some (.str p) => .ok (if "254".isPrefixOf p then p else "254" ++ p)
  | _ => .error .typeError

/-- Route `POST /api/pay` of `src/app.js` (lines 48-111): destructure the
body, compute `fullPhone` (before the `try`), then inside the `try` call
the provider; on a provider answer register the status key when truthy
and send the 200 JSON; on a caught provider error send the structured
`Failure` JSON with HTTP 500.  A `TypeError` at the phone-prefix check
happens before the `try`, so it escapes the handler: nothing is
contacted, registered, or sent. -/
def payHandler (body : PayBody) (provider : Except ApiFailure ProviderData) :
    PayOutcome :=
  match jsFullPhone body.phone with
  | .error e =>
      { thrown := some e, providerContacted := false, registered := false,
        response := none }
  | .ok _ =>
      match provider with
      | .ok data =>
          { thrown := none, providerContacted := true,
            registered := jsTruthyStr (jsOrOpt data.external_reference body.reference),
            response := some (.okJson (jsOrStr data.statusField "QUEUED")
              (jsOrOpt data.external_reference body.reference)) }
      | .error _ =>
          { thrown := none, providerContacted := true, registered := false,
            response := some (.failureJson 500 "Failure") }

/-- A webhook payload as SwiftWallet delivers it on success (used as
concrete test input). -/
def successBody (k : String) : SwiftCallback :=
  { success := some true, statusField := some "COMPLETED", external_reference := some k }

/-- A lower-case success payload for the case-insensitive variant. -/
def successBodyLower (k : String) : SwiftCallback :=
  { success := some true, statusField := some "completed", external_reference := some k }

/-- A freshly registered dual-gateway memory record for user 7. -/
def queuedRec : DGMemRec := { statusField := "QUEUED", user_id := some 7, verified := false }

/-- The same record after the callback handler wrote the terminal status
back into it. -/
def resolvedRec : DGMemRec := { statusField := "SUCCESS", user_id := some 7, verified := true }

theorem phStatus_transformBody (s : String) (cb : SwiftCallback) (d : String) :
    phStatus (transformBody s cb d) = some s := rfl

theorem phExtRef_transformLower (b : SwiftCallback) (d k : String)
    (hb : b.external_reference = some k) (hk : k ≠ "") :
    phExtRef (transformLower b d) = some k := by
  simp [phExtRef, transformLower, transformBody, hb, jsOrOpt, hk]

theorem relayStep_sink_liveN (k d : String) (s : RelayState) (e : RelayEvent) :
    (relayStep k d s e).sink.length + liveN (relayStep k d s e)
      = s.sink.length + liveN s := by
  cases e with
  | timer =>
      simp only [relayStep]
      cases hreg : s.registry with
      | none => simp [timerStep, liveN, hreg]
      | some r =>
          cases hr : r.resolved
          · simp [timerStep, liveN, hreg, hr]
          · simp [timerStep, liveN, hreg, hr]
  | webhook b =>
      simp only [relayStep]
      by_cases hrk : phExtRef (transformLower b d) = some k
      · cases hreg : s.registry with
        | none => simp [webhookStep, liveN, hreg, hrk]
        | some r =>
            cases hr : r.resolved
            · simp [webhookStep, liveN, hreg, hrk, hr]
            · simp [webhookStep, liveN, hreg, hrk, hr]
      · simp [webhookStep, liveN, hrk]

theorem relayRun_sink_liveN (k d : String) (evs : List RelayEvent) (s : RelayState) :
    (relayRun k d s evs).sink.length + liveN (relayRun k d s evs)
      = s.sink.length + liveN s := by
  induction evs generalizing s with
  | nil => rfl
  | cons e t ih =>
      have : relayRun k d s (e :: t) = relayRun k d (relayStep k d s e) t := rfl
      rw [this, ih (relayStep k d s e), relayStep_sink_liveN]

theorem relayStep_kills (k d : String) (hk : k ≠ "") (s : RelayState) (e : RelayEvent)
    (he : resolving k e) : liveN (relayStep k d s e) = 0 := by
  cases e with
  | timer =>
      simp only [relayStep]
      cases hreg : s.registry with
      | none => simp [timerStep, liveN, hreg]
      | some r =>
          cases hr : r.resolved
          · simp [timerStep, liveN, hreg, hr]
          · simp [timerStep, liveN, hreg, hr]
  | webhook b =>
      have href := phExtRef_transformLower b d k he hk
      simp only [relayStep]
      cases hreg : s.registry with
      | none => simp [webhookStep, liveN, hreg, href]
      | some r =>
          cases hr : r.resolved
          · simp [webhookStep, liveN, hreg, href, hr]
          · simp [webhookStep, liveN, hreg, href, hr]

theorem relayRun_kills (k d : String) (hk : k ≠ "") (evs : List RelayEvent)
    (s : RelayState) (hne : evs ≠ []) (hall : ∀ e ∈ evs, resolving k e) :
    liveN (relayRun k d s evs) = 0 := by
  induction evs generalizing s with
  | nil => exact absurd rfl hne
  | cons e t ih =>
      cases t with
      | nil => exact relayStep_kills k d hk s e (hall e (by simp))
      | cons e2 t2 =>
          exact ih (relayStep k d s e) (by simp)
            (fun x hx => hall x (List.mem_cons_of_mem _ hx))

theorem relayStep_records_timer (s : RelayState) : (timerStep s).records = s.records := by
  cases hreg : s.registry with
  | none => simp [timerStep, hreg]
  | some r =>
      cases hr : r.resolved
      · simp [timerStep, hreg, hr]
      · simp [timerStep, hreg, hr]

theorem relayStep_records_webhook (k d : String) (hk : k ≠ "") (b : SwiftCallback)
    (hb : b.external_reference = some k) (s : RelayState) :
    (webhookStep k d b s).records = s.records + 1 := by
  have href := phExtRef_transformLower b d k hb hk
  cases hreg : s.registry with
  | none => simp [webhookStep, hreg, href]
  | some r =>
      cases hr : r.resolved
      · simp [webhookStep, hreg, href, hr]
      · simp [webhookStep, hreg, href, hr]

theorem relayRun_records (k d : String) (hk : k ≠ "") (evs : List RelayEvent)
    (s : RelayState)
    (hwh : ∀ b, RelayEvent.webhook b ∈ evs → b.external_reference = some k) :
    (relayRun k d s evs).records = s.records + webhookCount evs := by
  induction evs generalizing s with
  | nil => rfl
  | cons e t ih =>
      have hstep : relayRun k d s (e :: t) = relayRun k d (relayStep k d s e) t := rfl
      cases e with
      | timer =>
          rw [hstep, ih (relayStep k d s .timer)
            (fun b hb => hwh b (List.mem_cons_of_mem _ hb))]
          simp [relayStep, relayStep_records_timer, webhookCount]
      | webhook b =>
          rw [hstep, ih (relayStep k d s (.webhook b))
            (fun x hx => hwh x (List.mem_cons_of_mem _ hx))]
          have hone : (relayStep k d s (.webhook b)).records = s.records + 1 :=
            relayStep_records_webhook k d hk b (hwh b (by simp)) s
          rw [hone]
          simp [webhookCount]
          omega

/-- C1: with one pending held request registered for key `k`, any
interleaving of `N ≥ 1` webhooks carrying `k` (duplicates included) and
the firing of the 120-second timer writes to the caller's held
connection exactly once, and persists exactly one `payment_callbacks`
row per webhook. -/
theorem c1_exactly_once_resolution (k d : String) (hk : k ≠ "")
    (evs : List RelayEvent)
    (hwh : ∀ b, RelayEvent.webhook b ∈ evs → b.external_reference = some k)
    (ht : RelayEvent.timer ∈ evs)
    (hN : 1 ≤ webhookCount evs) :
    (relayRun k d initState evs).sink.length = 1 ∧
    (relayRun k d initState evs).records = webhookCount evs := by
  have hne : evs ≠ [] := by
    intro h; rw [h] at ht; exact absurd ht (List.not_mem_nil _)
  have hall : ∀ e ∈ evs, resolving k e := by
    intro e he
    cases e with
    | webhook b => exact hwh b he
    | timer => trivial
  have h1 := relayRun_sink_liveN k d evs initState
  have h2 := relayRun_kills k d hk evs initState hne hall
  have h3 := relayRun_records k d hk evs initState hwh
  refine ⟨?_, ?_⟩
  · have hinit : initState.sink.length + liveN initState = 1 := rfl
    omega
  · simpa [initState] using h3

/-- Witness for C1: one success webhook for the key plus the timer. -/
theorem c1_exactly_once_resolution_witness :
    (relayRun "ABCD1234" "240101" initState
        [RelayEvent.webhook (successBodyLower "ABCD1234"), RelayEvent.timer]).sink.length = 1 ∧
    (relayRun "ABCD1234" "240101" initState
        [RelayEvent.webhook (successBodyLower "ABCD1234"), RelayEvent.timer]).records = 1 :=
  c1_exactly_once_resolution "ABCD1234" "240101" (by decide) _
    (by intro b hb; simp at hb; subst hb; rfl) (by simp) (by decide)

/-- C4: if no webhook arrives for the key, the firing of the timeout
timer writes exactly one `TIMEOUT` response to the held connection and
removes the key from the registry. -/
theorem c4_timeout_resolution (k d : String) :
    relayRun k d initState [RelayEvent.timer]
      = { registry := none, sink := ["TIMEOUT"], records := 0 } := rfl

theorem relayStep_registry (k d : String) (s : RelayState) (e : RelayEvent) :
    (relayStep k d s e).registry = s.registry ∨ (relayStep k d s e).registry = none := by
  cases e with
  | timer =>
      cases hreg : s.registry with
      | none => left; simp [relayStep, timerStep, hreg]
      | some r =>
          cases hr : r.resolved
          · right; simp [relayStep, timerStep, hreg, hr]
          · left; simp [relayStep, timerStep, hreg, hr]
  | webhook b =>
      by_cases hrk : phExtRef (transformLower b d) = some k
      · cases hreg : s.registry with
        | none => left; simp [relayStep, webhookStep, hreg, hrk]
        | some r =>
            cases hr : r.resolved
            · right; simp [relayStep, webhookStep, hreg, hrk, hr]
            · left; simp [relayStep, webhookStep, hreg, hrk, hr]
      · left; simp [relayStep, webhookStep, hrk]

/-- C2 (amended): in the held-connection variant every entry the
reconciliation engine keeps in the registry is unresolved — both
resolution paths delete the key in the same step that marks it resolved,
so no `Resolved`/`TimedOut` record survives in the registry. -/
theorem c2_registry_holds_only_pending (k d : String) (evs : List RelayEvent)
    (r : PendingRequest)
    (h : (relayRun k d initState evs).registry = some r) : r.resolved = false := by
  suffices hinv : ∀ s : RelayState,
      (∀ r0 : PendingRequest, s.registry = some r0 → r0.resolved = false) →
      ∀ r0 : PendingRequest, (relayRun k d s evs).registry = some r0 →
        r0.resolved = false by
    refine hinv initState ?_ r h
    intro r0 h0
    cases Option.some.inj h0
    rfl
  clear h r
  induction evs with
  | nil => intro s hs; exact hs
  | cons e t ih =>
      intro s hs
      have hstep : ∀ r0 : PendingRequest,
          (relayStep k d s e).registry = some r0 → r0.resolved = false := by
        intro r0 h0
        rcases relayStep_registry k d s e with hsame | hnone
        · exact hs r0 (hsame ▸ h0)
        · rw [hnone] at h0; cases h0
      exact ih (relayStep k d s e) hstep

/-- Witness for C2 (amended), at the freshly registered state. -/
theorem c2_registry_holds_only_pending_witness :
    ({ resolved := false } : PendingRequest).resolved = false :=
  c2_registry_holds_only_pending "ABCD1234" "240101" [] { resolved := false } rfl

/-- Counterexample to C2 as stated: the `src/app.js` dual-gateway
callback handler, after fully processing a success webhook for a
registered key (HTTP 200 sent, i.e. the request reached its terminal
outcome), leaves the key in `transactionStatuses` with the terminal
`SUCCESS`, `verified := true` record instead of removing it. -/
theorem c2_counterexample :
    dualCallbackHandler (some queuedRec) (successBody "REF1") "d"
      = { httpResponse := some 200, callbackRows := 1, transactionRows := 1,
          memoryAfter := some resolvedRec } ∧
    (dualCallbackHandler (some queuedRec) (successBody "REF1") "d").memoryAfter ≠ none := by
  refine ⟨by decide, by decide⟩

/-- C6 (code bug): a success webhook whose reference has no entry in
`transactionStatuses` drives the `src/app.js` dual-gateway callback
handler into the early `return` of its success branch — the handler ends
without sending any HTTP response at all (the callback row is still
persisted beforehand). -/
theorem c6_missing_user_skips_response :
    dualCallbackHandler none (successBody "REF1") "d"
      = { httpResponse := none, callbackRows := 1, transactionRows := 0,
          memoryAfter := none } := by decide

/-- C3: callback normalization (both source variants of
`transformSwiftWalletCallbackToPayHero`) classifies a webhook as `Success`
only when the explicit `success` indicator is literally `true` and the raw
status equals the provider's completed token compared case-insensitively;
a payload whose success indicator is missing or not `true` is always
classified `Failed`, never `Success`. -/
theorem c3_fail_safe_classification (cb : SwiftCallback) (d : String) :
    (phStatus (transformLower cb d) = some "Success" →
        cb.success = some true ∧ statusLower cb = some "completed") ∧
    (phStatus (transformExact cb d) = some "Success" →
        cb.success = some true ∧ statusLower cb = some "completed") ∧
    (cb.success ≠ some true →
        phStatus (transformLower cb d) = some "Failed" ∧
        phStatus (transformExact cb d) = some "Failed") := by
  refine ⟨?_, ?_, ?_⟩
  · intro h
    rw [transformLower, phStatus_transformBody] at h
    by_cases hC : cb.success = some true ∧
        (statusLower cb = some "completed" ∨ statusLower cb = some "completed")
    · exact ⟨hC.1, hC.2.elim id id⟩
    · rw [if_neg hC] at h
      exact absurd (Option.some.inj h) (by decide)
  · intro h
    rw [transformExact, phStatus_transformBody] at h
    by_cases hC : cb.success = some true ∧
        (cb.statusField = some "completed" ∨ cb.statusField = some "COMPLETED")
    · refine ⟨hC.1, ?_⟩
      rcases hC.2 with h1 | h1 <;> simp [statusLower, h1] <;> decide
    · rw [if_neg hC] at h
      exact absurd (Option.some.inj h) (by decide)
  · intro h
    constructor
    · rw [transformLower, phStatus_transformBody, if_neg]
      exact fun hC => h hC.1
    · rw [transformExact, phStatus_transformBody, if_neg]
      exact fun hC => h hC.1

/-- Witness for C3 at a concrete payload whose success indicator is `false`. -/
theorem c3_fail_safe_classification_witness :
    phStatus (transformLower
        { success := some false, statusField := some "completed" } "d") = some "Failed" ∧
    phStatus (transformExact
        { success := some false, statusField := some "completed" } "d") = some "Failed" :=
  (c3_fail_safe_classification
    { success := some false, statusField := some "completed" } "d").2.2 (by decide)

/-- Counterexample to C5 as stated: the early PayHero status endpoint
(`src/app.js` lines 532-541) answers a key that is merely not found yet
with HTTP 404 and a `Failure` body, not with a pending payload and
HTTP 202. -/
theorem c5_counterexample :
    memoryOnlyStatusHandler none = { code := 404, tag := "Failure" } ∧
    (memoryOnlyStatusHandler none).code ≠ 202 := ⟨rfl, by decide⟩

/-- C5 (amended): the dual-gateway status endpoint consults the
in-memory map first (answering from it regardless of the store), then
the most recent durable row, and a key absent from both gets a pending
payload with HTTP 202 — an error status arises only from a failing store
query, never from a merely missing key. -/
theorem c5_status_query_order (mem : Option DGMemRec) (db : Except Unit (List DbRow)) :
    (∀ s, mem = some s → dualStatusHandler mem db
        = { code := 200, tag := "Success", payloadStatus := some s.statusField,
            verifiedFlag := some (statusVerified s.statusField) }) ∧
    (mem = none → db = .ok [] → dualStatusHandler mem db
        = { code := 202, tag := "Pending", verifiedFlag := some false }) ∧
    (mem = none → ∀ r rs, db = .ok (r :: rs) → dualStatusHandler mem db
        = { code := 200, tag := "Success",
            payloadStatus := some (jsToUpper (jsOrStr r.statusField "PENDING")),
            verifiedFlag := some (statusVerified
              (jsToUpper (jsOrStr r.statusField "PENDING"))) }) ∧
    (mem = none → ∀ e, db = .error e → dualStatusHandler mem db
        = { code := 500, tag := "Failure" }) := by
  refine ⟨?_, ?_, ?_, ?_⟩
  · intro s hs; subst hs; rfl
  · intro hm hdb; subst hm; subst hdb; rfl
  · intro hm r rs hdb; subst hm; subst hdb; rfl
  · intro hm e hdb; subst hm; subst hdb; rfl

/-- Witness for C5 (amended): key absent from memory and store. -/
theorem c5_status_query_order_witness :
    dualStatusHandler none (Except.ok [])
      = { code := 202, tag := "Pending", verifiedFlag := some false } :=
  (c5_status_query_order none (Except.ok [])).2.1 rfl rfl

/-- Counterexample to C7 as stated: a provider-reported business failure
(HTTP 400 with a structured error body) is retried — the loop makes all
3 attempts instead of surfacing the failure after the first. -/
theorem c7_counterexample :
    (retryLoop businessReject).1 = 3 ∧ (retryLoop businessReject).1 ≠ 1 :=
  ⟨rfl, by decide⟩

/-- C7 (amended): the initiation call is attempted at most 3 times with
a fixed backoff; the first success stops the loop, and every kind of
failure — transport or provider-reported — is retried until the budget
is exhausted, after which the last failure surfaces to the caller. -/
theorem c7_bounded_retry_budget (p : Nat → ApiResult) :
    (retryLoop p).1 ≤ 3 ∧
    (∀ r, p 1 = .ok r → retryLoop p = (1, .ok r)) ∧
    (∀ e1 e2 e3, p 1 = .err e1 → p 2 = .err e2 → p 3 = .err e3 →
      retryLoop p = (3, .err e3)) := by
  refine ⟨?_, ?_, ?_⟩
  · have h3 : (retryLoop p).1 = 1 ∨ (retryLoop p).1 = 2 ∨ (retryLoop p).1 = 3 := by
      rcases h1 : p 1 with r | e
      · left; simp [retryLoop, runAttempts, h1]
      · rcases h2 : p 2 with r | e2
        · right; left; simp [retryLoop, runAttempts, h1, h2]
        · right; right; simp [retryLoop, runAttempts, h1, h2]
    omega
  · intro r h1
    simp [retryLoop, runAttempts, h1]
  · intro e1 e2 e3 h1 h2 h3
    simp [retryLoop, runAttempts, h1, h2, h3]

/-- Witness for C7 (amended): the always-rejecting provider exhausts the
3-attempt budget and its failure surfaces. -/
theorem c7_bounded_retry_budget_witness :
    retryLoop businessReject
      = (3, ApiResult.err { httpStatus := some 400, body := some "invalid phone" }) :=
  (c7_bounded_retry_budget businessReject).2.2 _ _ _ rfl rfl rfl

theorem payheroCallbackV1_success (k : String) (hk : k ≠ "") (u : Nat) (hu : u ≠ 0)
    (m : DGMemRec) (hm : m.user_id = some u) :
    payheroCallbackV1 (some m) (successPayHero k)
      = { httpResponse := some 200, callbackRows := 1, transactionRows := 1,
          memoryAfter := some m } := by
  have hst : statusIsLower (cbStatus (successPayHero k)) "success" = true := rfl
  have href : phExtRef4 (successPayHero k) = some k := by
    simp [phExtRef4, successPayHero, jsOrOpt, hk]
  simp [payheroCallbackV1, href, hst, hm, hu]

/-- Counterexample to C8 as stated: delivering the identical success
webhook twice for a key whose memory entry names user 7 produces two
`payment_callbacks` rows AND two `transactions` (ledger) rows — the
ledger insert has no duplicate protection. -/
theorem c8_counterexample :
    deliverRepeat (some queuedRec) (successPayHero "REF1") 2
      = { callbackRows := 2, transactionRows := 2 } ∧
    (deliverRepeat (some queuedRec) (successPayHero "REF1") 2).transactionRows ≠ 1 :=
  ⟨by decide, by decide⟩

/-- C8 (amended): n identical success deliveries for a registered key
with a known user produce n `payment_callbacks` rows and n ledger rows —
one ledger insert per delivery, with no idempotence. -/
theorem c8_duplicate_ledger_rows (k : String) (hk : k ≠ "") (u : Nat) (hu : u ≠ 0)
    (m : DGMemRec) (hm : m.user_id = some u) (n : Nat) :
    deliverRepeat (some m) (successPayHero k) n
      = { callbackRows := n, transactionRows := n } := by
  induction n with
  | zero => rfl
  | succ n ih =>
      simp [deliverRepeat, ih, payheroCallbackV1_success k hk u hu m hm]

/-- Witness for C8 (amended) at two deliveries. -/
theorem c8_duplicate_ledger_rows_witness :
    deliverRepeat (some queuedRec) (successPayHero "REF2") 2
      = { callbackRows := 2, transactionRows := 2 } :=
  c8_duplicate_ledger_rows "REF2" (by decide) 7 (by decide) queuedRec rfl 2

theorem jsSliceLast4_digits (n : Nat) (h : 1000 ≤ n) :
    jsSliceLast4 (jsNumToString n) = pad4 (n % 10000) := by
  have h0 : n ≠ 0 := by omega
  have h1 : 0 < n := by omega
  have h2 : 0 < n / 10 := by omega
  have h3 : 0 < n / 10 / 10 := by omega
  have h4 : 0 < n / 10 / 10 / 10 := by omega
  have e1 := Nat.digits_def' (by norm_num : (1:Nat) < 10) h1
  have e2 := Nat.digits_def' (by norm_num : (1:Nat) < 10) h2
  have e3 := Nat.digits_def' (by norm_num : (1:Nat) < 10) h3
  have e4 := Nat.digits_def' (by norm_num : (1:Nat) < 10) h4
  rw [jsNumToString, if_neg h0, jsSliceLast4]
  rw [e1, e2, e3, e4]
  simp only [List.map_cons, List.reverse_cons, List.append_assoc, List.cons_append,
    List.nil_append, String.toList]
  have hlen : ∀ M : List Char, (M ++ [Nat.digitChar (n / 10 / 10 / 10 % 10),
      Nat.digitChar (n / 10 / 10 % 10), Nat.digitChar (n / 10 % 10),
      Nat.digitChar (n % 10)]).length - 4 = M.length := by
    intro M; simp [List.length_append]
  rw [hlen, List.drop_left]
  have g3 : n / 10 / 10 / 10 % 10 = n % 10000 / 1000 % 10 := by omega
  have g2 : n / 10 / 10 % 10 = n % 10000 / 100 % 10 := by omega
  have g1 : n / 10 % 10 = n % 10000 / 10 % 10 := by omega
  have g0 : n % 10 = n % 10000 % 10 := by omega
  rw [g3, g2, g1, g0, pad4]

/-- C9: for any caller reference and any timestamp of at least four
decimal digits, the generated correlation key is the reference stripped
of non-alphanumerics and truncated to its 4 leading characters, followed
by the 4-digit decimal representation of the current milliseconds modulo
10000; its length is at most 8. -/
theorem c9_reference_generation (ref : String) (now : Nat) (h : 1000 ≤ now) :
    uniqueRef ref now = jsSubstring4 (stripNonAlnum ref) ++ pad4 (now % 10000) ∧
    (pad4 (now % 10000)).length = 4 ∧
    (uniqueRef ref now).length ≤ 8 := by
  have hslice := jsSliceLast4_digits now h
  refine ⟨by rw [uniqueRef, hslice], rfl, ?_⟩
  rw [uniqueRef, hslice]
  have hA : (jsSubstring4 (stripNonAlnum ref)).length ≤ 4 := by
    have : (jsSubstring4 (stripNonAlnum ref)).length
        = ((stripNonAlnum ref).toList.take 4).length := rfl
    rw [this, List.length_take]
    omega
  have hB : (pad4 (now % 10000)).length = 4 := rfl
  have hAB : (jsSubstring4 (stripNonAlnum ref) ++ pad4 (now % 10000)).length
      = (jsSubstring4 (stripNonAlnum ref)).length + (pad4 (now % 10000)).length := by
    simp [String.length_append]
  omega

/-- Witness for C9 at a punctuated reference and a realistic clock. -/
theorem c9_reference_generation_witness :
    uniqueRef "ACT-123!x" 1730000042 = "ACT1" ++ pad4 42 ∧
    (pad4 (1730000042 % 10000)).length = 4 ∧
    (uniqueRef "ACT-123!x" 1730000042).length ≤ 8 := by
  have h := c9_reference_generation "ACT-123!x" 1730000042 (by norm_num)
  refine ⟨?_, h.2.1, h.2.2⟩
  rw [h.1]
  decide

/-- C10: a `POST /api/pay` body whose `phone` is absent, `null`, or not
a string makes the handler throw a `TypeError` at the
`phone.startsWith('254')` check, before any provider contact and before
any registration, so the request is never answered — in particular not
with the structured `Failure` JSON of the error branch. -/
theorem c10_missing_phone_throws (body : PayBody)
    (provider : Except ApiFailure ProviderData)
    (hphone : ∀ s, body.phone ≠ some (JsVal.str s)) :
    payHandler body provider
      = { thrown := some JsError.typeError, providerContacted := false,
          registered := false, response := none } := by
  cases hb : body.phone with
  | none => simp [payHandler, jsFullPhone, hb]
  | some v =>
      cases v with
      | str s => exact absurd hb (hphone s)
      | num k => simp [payHandler, jsFullPhone, hb]
      | jsNull => simp [payHandler, jsFullPhone, hb]

/-- Witness for C10 at a body with no `phone` field. -/
theorem c10_missing_phone_throws_witness :
    payHandler {} (Except.ok {})
      = { thrown := some JsError.typeError, providerContacted := false,
          registered := false, response := none } :=
  c10_missing_phone_throws {} (Except.ok {}) (fun s h => Option.noConfusion h)

end PaymentRelay
